import Mathlib

/-!
Shallow embedding of the board-tracking and fast position-detection
pipeline of `src/chess/chess_companion_standalone.py`
(`ChessCompanionSimplified`).

External collaborators (Roboflow vision calls, the chess library, the
analyzer, Google capture devices) are modelled as oracle fields of an
`Env` record: each oracle is an arbitrary function whose `Option` /
`Except` result encodes the Python call returning a falsy value or
raising an exception.  The mutable fields of `ChessCompanionSimplified`
that the verified operations touch are gathered in `CompanionState`;
every operation is embedded as a pure state-transformer over it.
-/

/-- Frames are opaque snapshots; the pipeline never inspects their pixels
directly, it only hands them to oracles. -/
abbrev Frame := Nat

/-- One detection prediction, opaque to the orchestration code (only the
count of predictions is ever inspected). -/
abbrev Prediction := Nat

/-- Broadcast context extracted from a frame by the analyzer collaborator;
opaque to the orchestration code. -/
abbrev BroadcastContext := Nat

/-- One per-perspective analysis payload, opaque to the orchestration code
apart from being re-formatted for the live model. -/
abbrev Analysis := Nat

/-- A bounding box `(x_min, y_min, x_max, y_max)` in the fixed 1024x1024
normalized coordinate space.  PIL crop size is `(x_max - x_min, y_max - y_min)`;
Nat subtraction models the degenerate-box clamp to zero. -/
structure Bbox where
  x_min : Nat
  y_min : Nat
  x_max : Nat
  y_max : Nat
deriving DecidableEq, Repr

/-- The cached board mask: `self.current_board_mask` when non-`None` is the
dict `{"bbox": coords, "confidence": c, "timestamp": t}`.  Confidence and
timestamp are floats in the source; the orchestration code never computes
with them, so they are carried as opaque numerals. -/
structure BoardMask where
  bbox : Bbox
  confidence : Nat
  timestamp : Nat
deriving DecidableEq, Repr

/-- Result of `pipeline.detect_pieces_direct`: the orchestration code reads
only `result.get("predictions", [])`. -/
structure PieceResult where
  predictions : List Prediction
deriving DecidableEq, Repr

/-- Result of `pipeline.segment_board_direct`: the orchestration code tests
only the truthiness of `result.get("predictions")`. -/
structure SegResult where
  predictions : List Prediction
deriving DecidableEq, Repr

/-- Result of `pipeline.extract_bbox_from_segmentation`: a dict with
`"coords"` and `"confidence"`. -/
structure ExtractedBbox where
  coords : Bbox
  confidence : Nat
deriving DecidableEq, Repr

/-- Result of `roboflow_piece_detection` (consensus detection): the caller
reads `result.get("piece_count", 0)` and `result["consensus_fen"]`. -/
structure ConsensusResult where
  piece_count : Nat
  consensus_fen : String
deriving DecidableEq, Repr

/-- Oracles for the external collaborators consumed by one pipeline
operation.  `Except Unit _` encodes a Python call that may raise;
`Option _` encodes a call that may return a falsy result (a raising call
whose exception is handled like a falsy result is folded into `none`). -/
structure Env where
  /-- `self.shared_cap.read()`: `none` models `ret == False`. -/
  read : Option Frame
  /-- `pipeline.segment_board_direct` on the 1024x1024 screenshot; `.error`
  folds in any exception raised between capture and segmentation. -/
  segment_board_direct : Frame → Except Unit SegResult
  /-- `pipeline.extract_bbox_from_segmentation`. -/
  extract_bbox_from_segmentation : SegResult → Option ExtractedBbox
  /-- `pipeline.detect_pieces_direct(crop, model_id)`; the crop is determined
  by the frame and the cached bbox.  `none` folds a falsy result and a
  raising call together: both make the fast path fall back. -/
  detect_pieces_direct : Frame → Bbox → String → Option PieceResult
  /-- `pipeline.pieces_to_fen_from_dimensions(result, w, h, model_id)`:
  pure coordinate math, no API call. -/
  pieces_to_fen_from_dimensions : PieceResult → Nat → Nat → String → String
  /-- `roboflow_piece_detection(temp_path, n, min_consensus)`; the temp path
  is a saved copy of the frame.  `.error` folds in any exception, including
  a failed temp save. -/
  consensus_piece_detection : Frame → Nat → Nat → Except Unit ConsensusResult
  /-- `self.is_valid_fen`: wraps the external chess library
  (`chess.Board(fen)` succeeding), modelled as an oracle predicate. -/
  is_valid_fen : String → Bool
  /-- `self.analyzer.analyze_both_perspectives(fen, frame, commentary_context)`,
  returning the per-perspective analysis mapping. -/
  analyze_both_perspectives :
      String → Option Frame → List String → Except Unit (List (String × Analysis))
  /-- `self.analyzer._extract_broadcast_context(frame)`. -/
  extract_broadcast_context : Frame → Except Unit BroadcastContext
  /-- `self.analyzer.determine_query_perspective(query, broadcast_context)`. -/
  determine_query_perspective : String → BroadcastContext → Except Unit String
  /-- `self.analyzer._format_for_live_model` applied to an analysis dict
  carrying the user query. -/
  format_for_live_model : Analysis → String → String

/-- The mutable companion fields touched by the verified operations. -/
structure CompanionState where
  /-- `self.current_board`: last confirmed position string, `None` at init. -/
  current_board : Option String
  /-- `self.current_analysis`: perspective → analysis mapping, `None` at init. -/
  current_analysis : Option (List (String × Analysis))
  /-- `self.analyzing`: the scheduler busy flag. -/
  analyzing : Bool
  /-- `self.commentary_buffer`. -/
  commentary_buffer : List String
  /-- `self.watching_mode`. -/
  watching_mode : Bool
  /-- `self.current_board_mask`. -/
  current_board_mask : Option BoardMask

/-- The empty-board sentinel rejected by both detection paths. -/
def emptyBoardFen : String := "8/8/8/8/8/8/8/8"

/-- The fast-path piece-detection model id. -/
def fastPathModelId : String := "chess.comdetection/4"

/-- `_fallback_full_detection(frame)`: saves the frame to a temp file, runs
`roboflow_piece_detection(temp_path, n=7, min_consensus=3)`, rejects a
result with fewer than 2 pieces or the empty-board sentinel, and returns
`None` on any exception. -/
def fallback_full_detection (env : Env) (frame : Frame) : Option String :=
  match env.consensus_piece_detection frame 7 3 with
  | .error _ => none
  | .ok result =>
    if result.piece_count < 2 then none
    else if result.consensus_fen = emptyBoardFen then none
    else some result.consensus_fen

/-- `extract_fen_with_cached_mask(frame)`.  The first component is the value
the Python coroutine returns; the second instruments whether
`_fallback_full_detection` was invoked (on missing mask, empty crop, or a
failed/raising piece-detection call the coroutine returns the fallback
result; on fewer than 2 pieces or an empty-board FEN it returns `None`
directly). -/
def extract_fen_with_cached_mask (env : Env) (mask : Option BoardMask)
    (frame : Frame) : Option String × Bool :=
  match mask with
  | none => (fallback_full_detection env frame, true)
  | some m =>
    if m.bbox.x_max - m.bbox.x_min = 0 ∨ m.bbox.y_max - m.bbox.y_min = 0 then
      (fallback_full_detection env frame, true)
    else
      match env.detect_pieces_direct frame m.bbox fastPathModelId with
      | none => (fallback_full_detection env frame, true)
      | some piece_result =>
        let piece_count := piece_result.predictions.length
        if piece_count < 2 then (none, false)
        else
          let fen := env.pieces_to_fen_from_dimensions piece_result 640 640
              fastPathModelId
          if fen = emptyBoardFen then (none, false)
          else (some fen, false)

/-- `update_board_mask(frame)`: reads a fresh screenshot (on capture failure
it returns early, leaving the cached mask untouched), segments it, and
replaces the cached mask wholesale; segmentation with no predictions, no
extractable bbox, or any exception sets the cache to `None`.  `now` is the
`time.time()` value recorded at entry. -/
def update_board_mask (env : Env) (old : Option BoardMask) (now : Nat) :
    Option BoardMask :=
  match env.read with
  | none => old
  | some screenshot =>
    match env.segment_board_direct screenshot with
    | .error _ => none
    | .ok seg =>
      if seg.predictions.isEmpty then none
      else
        match env.extract_bbox_from_segmentation seg with
        | none => none
        | some b =>
          some { bbox := b.coords, confidence := b.confidence, timestamp := now }

/-- `on_board_change(new_fen, frame)`: updates `current_board` (the
commentary buffer is deliberately kept) and spawns
`analyze_new_position` only when the busy flag is clear.  The Bool records
whether an analysis task was created. -/
def on_board_change (st : CompanionState) (new_fen : String) :
    CompanionState × Bool :=
  let st2 := { st with current_board := some new_fen }
  if st.analyzing then (st2, false) else (st2, true)

/-- `analyze_new_position(fen, frame)`: no-op when already analyzing;
otherwise sets the busy flag, calls the analyzer, overwrites
`current_analysis` on success, and clears the busy flag in `finally` on
both the success and the exception path (the watching-mode push catches
its own errors and mutates none of these fields). -/
def analyze_new_position (env : Env) (st : CompanionState) (fen : String)
    (frame : Option Frame) : CompanionState :=
  if st.analyzing then st
  else
    match env.analyze_both_perspectives fen frame st.commentary_buffer with
    | .ok analyses =>
        { st with analyzing := false, current_analysis := some analyses }
    | .error _ => { st with analyzing := false }

/-- One iteration of `fast_fen_detection_loop`: waits (no state change) while
the mask cache is empty or the frame capture fails; otherwise extracts a
FEN with the cached mask and, when it is truthy, syntactically valid, and
different from `current_board`, hands off to `on_board_change`.  The Bool
records whether an analysis task was spawned. -/
def loop_iteration (env : Env) (st : CompanionState) : CompanionState × Bool :=
  match st.current_board_mask with
  | none => (st, false)
  | some _ =>
    match env.read with
    | none => (st, false)
    | some frame =>
      match (extract_fen_with_cached_mask env st.current_board_mask frame).1 with
      | none => (st, false)
      | some f =>
        if f = "" then (st, false)
        else if env.is_valid_fen f then
          if some f ≠ st.current_board then on_board_change st f
          else (st, false)
        else (st, false)

/-- The FEN value produced by one iteration of `fast_fen_detection_loop`
(`none` when no extraction happens because the mask cache is empty or the
capture fails). -/
def iteration_fen (env : Env) (st : CompanionState) : Option String :=
  match st.current_board_mask with
  | none => none
  | some _ =>
    match env.read with
    | none => none
    | some frame => (extract_fen_with_cached_mask env st.current_board_mask frame).1

/-- The tool response for `analyze_current_position` in `handle_tool_call`:
either a ready analysis (formatted text, echoed query, chosen perspective)
or the no-analysis message. -/
inductive ToolResult where
  | analysis_ready (analysisText : String) (query : String) (perspective : String)
  | no_analysis (message : String)
deriving DecidableEq, Repr

/-- The default query filled in for `fc.args.get("query", ...)`. -/
def defaultPositionQuery : String := "Analyze the current chess position"

/-- The perspective chosen in the `analyze_current_position` branch of
`handle_tool_call`: a fresh frame is read and the analyzer infers the
active side; a failed capture or any exception defaults to `"white"`. -/
def resolve_perspective (env : Env) (user_query : String) : String :=
  match env.read with
  | none => "white"
  | some frame =>
    match env.extract_broadcast_context frame with
    | .error _ => "white"
    | .ok ctx =>
      match env.determine_query_perspective user_query ctx with
      | .error _ => "white"
      | .ok color => color

/-- `self.current_analysis.get(color, self.current_analysis.get("white", {}))`;
`none` models both keys missing (the falsy `{}` default). -/
def lookupPerspective (m : List (String × Analysis)) (color : String) :
    Option Analysis :=
  match m.lookup color with
  | some a => some a
  | none => m.lookup "white"

/-- The `analyze_current_position` branch of `handle_tool_call`: serves the
stored `current_analysis` (no new analysis is started or awaited),
resolving a perspective and re-formatting the chosen analysis with the
caller query attached. -/
def analyze_current_position_tool (env : Env) (st : CompanionState)
    (queryArg : Option String) : ToolResult :=
  let user_query := queryArg.getD defaultPositionQuery
  match st.current_analysis with
  | none =>
    .no_analysis "No analysis available yet. Please wait for position detection."
  | some m =>
    let color := resolve_perspective env user_query
    match lookupPerspective m color with
    | none =>
      .no_analysis "No analysis available yet. Please wait for position detection."
    | some a =>
      .analysis_ready (env.format_for_live_model a user_query) user_query color

/-- The commentary append performed for each finalized transcript in
`_run_transcription_sync`: `self.commentary_buffer.append(transcript)`
followed by trimming to the last 10 entries (`buffer[-10:]`) when the
length exceeds 10. -/
def append_commentary_line (buf : List String) (transcript : String) :
    List String :=
  if (buf ++ [transcript]).length > 10 then
    (buf ++ [transcript]).drop ((buf ++ [transcript]).length - 10)
  else buf ++ [transcript]

/-- The `ROBOFLOW_API_KEY` precondition check in
`ChessCompanionSimplified.__init__`: `not os.getenv(...)` is true when the
variable is unset or empty, and then a `ValueError` is raised. -/
def roboflow_key_check (getenv : String → Option String) : Except String Unit :=
  if (getenv "ROBOFLOW_API_KEY").getD "" = "" then
    .error "ROBOFLOW_API_KEY environment variable required for vision pipeline"
  else .ok ()

/-! Concrete oracle environments and states used to evaluate the embedded
operations on explicit inputs. -/

/-- A concrete non-degenerate bounding box. -/
def bboxEx : Bbox := { x_min := 0, y_min := 0, x_max := 10, y_max := 10 }

/-- A concrete cached board mask built from `bboxEx`. -/
def maskEx : BoardMask := { bbox := bboxEx, confidence := 9, timestamp := 0 }

/-- A concrete environment whose piece detector finds exactly one piece. -/
def envOnePiece : Env where
  read := some 0
  segment_board_direct := fun _ => .ok { predictions := [0] }
  extract_bbox_from_segmentation := fun _ => some { coords := bboxEx, confidence := 9 }
  detect_pieces_direct := fun _ _ _ => some { predictions := [0] }
  pieces_to_fen_from_dimensions := fun _ _ _ _ => emptyBoardFen
  consensus_piece_detection := fun _ _ _ => .error ()
  is_valid_fen := fun f => decide (f ≠ "")
  analyze_both_perspectives := fun _ _ _ => .error ()
  extract_broadcast_context := fun _ => .error ()
  determine_query_perspective := fun _ _ => .error ()
  format_for_live_model := fun _ q => q

/-- A concrete environment whose frame capture fails. -/
def envNoFrame : Env := { envOnePiece with read := none }

/-- A concrete environment whose board segmentation raises. -/
def envSegFail : Env := { envOnePiece with segment_board_direct := fun _ => .error () }

/-- A concrete companion state with a cached mask and no known board. -/
def stEx : CompanionState where
  current_board := none
  current_analysis := none
  analyzing := false
  commentary_buffer := []
  watching_mode := true
  current_board_mask := some maskEx

/-- A stale mask distinct from `maskEx`, used to exhibit retention. -/
def maskOld : BoardMask where
  bbox := { x_min := 1, y_min := 2, x_max := 3, y_max := 4 }
  confidence := 5
  timestamp := 6

/-- A concrete environment whose fast path detects a full starting position. -/
def envChange : Env := { envOnePiece with
  detect_pieces_direct := fun _ _ _ => some { predictions := [0, 1] }
  pieces_to_fen_from_dimensions :=
    fun _ _ _ _ => "rnbqkbnr/pppppppp/8/8/8/8/PPPPPPPP/RNBQKBNR" }

/-- A concrete environment whose analyzer succeeds with a white-perspective
analysis. -/
def envAnalyzeOk : Env :=
  { envOnePiece with analyze_both_perspectives := fun _ _ _ => .ok [("white", 1)] }

/-- A concrete busy state. -/
def stBusy : CompanionState := { stEx with analyzing := true }

/-- A concrete state holding a previously stored analysis. -/
def stWithAnalysis : CompanionState :=
  { stEx with current_analysis := some [("white", 42)] }

/-- First component of `on_board_change`: `current_board` is updated whether
or not the busy flag is set. -/
theorem on_board_change_fst (st : CompanionState) (f : String) :
    (on_board_change st f).1 = { st with current_board := some f } := by
  unfold on_board_change
  by_cases h : st.analyzing <;> simp [h]

/-- A polling iteration that extracts no FEN (empty mask cache, failed
capture, or a `None` extraction) leaves the whole state unchanged. -/
theorem loop_iteration_fst_of_fen_none (env : Env) (st : CompanionState)
    (h : iteration_fen env st = none) :
    (loop_iteration env st).1 = st := by
  cases hmask : st.current_board_mask with
  | none => simp [loop_iteration, hmask]
  | some m =>
    cases hread : env.read with
    | none => simp [loop_iteration, hmask, hread]
    | some frame =>
      have h2 : (extract_fen_with_cached_mask env (some m) frame).1 = none := by
        simpa [iteration_fen, hmask, hread] using h
      simp [loop_iteration, hmask, hread, h2]

/-- A polling iteration that extracts `some f` updates `current_board` to
`f` exactly when `f` is truthy, valid, and different; otherwise the state
is unchanged. -/
theorem loop_iteration_fst_of_fen_some (env : Env) (st : CompanionState)
    (f : String) (h : iteration_fen env st = some f) :
    (loop_iteration env st).1 =
      if f ≠ "" ∧ env.is_valid_fen f = true ∧ some f ≠ st.current_board
      then { st with current_board := some f } else st := by
  cases hmask : st.current_board_mask with
  | none => simp [iteration_fen, hmask] at h
  | some m =>
    cases hread : env.read with
    | none => simp [iteration_fen, hmask, hread] at h
    | some frame =>
      have h2 : (extract_fen_with_cached_mask env (some m) frame).1 = some f := by
        simpa [iteration_fen, hmask, hread] using h
      by_cases hemp : f = ""
      · simp [loop_iteration, hmask, hread, h2, hemp]
      · by_cases hvalid : env.is_valid_fen f = true
        · by_cases hdiff : some f = st.current_board
          · have hnd : ¬ (some f ≠ st.current_board) := not_not_intro hdiff
            simp [loop_iteration, hmask, hread, h2, hemp, hvalid, hnd]
          · simp [loop_iteration, hmask, hread, h2, hemp, hvalid, hdiff,
              on_board_change_fst]
        · simp [loop_iteration, hmask, hread, h2, hemp, hvalid]

/-- C3: in every polling iteration, `current_board` changes exactly when the
newly extracted FEN is non-null, syntactically valid, and different from
the previous value, and on a valid-and-different extraction the update to
the new FEN always occurs.  The hypothesis records that the real
`is_valid_fen` rejects the empty string (`chess.Board("")` raises). -/
theorem C3_position_change_iff (env : Env) (st : CompanionState)
    (hempty : env.is_valid_fen "" = false) :
    ((loop_iteration env st).1.current_board ≠ st.current_board ↔
      ∃ f, iteration_fen env st = some f ∧ env.is_valid_fen f = true ∧
        some f ≠ st.current_board) ∧
    (∀ f, iteration_fen env st = some f → env.is_valid_fen f = true →
      some f ≠ st.current_board →
      (loop_iteration env st).1.current_board = some f) := by
  cases hf : iteration_fen env st with
  | none =>
    have keycb : (loop_iteration env st).1.current_board = st.current_board := by
      rw [loop_iteration_fst_of_fen_none env st hf]
    refine ⟨⟨fun hc => absurd keycb hc, ?_⟩, ?_⟩
    · rintro ⟨g, hg, -, -⟩; exact Option.noConfusion hg
    · intro g hg; exact Option.noConfusion hg
  | some f =>
    have key := loop_iteration_fst_of_fen_some env st f hf
    by_cases hcond : f ≠ "" ∧ env.is_valid_fen f = true ∧ some f ≠ st.current_board
    · rw [if_pos hcond] at key
      have keycb : (loop_iteration env st).1.current_board = some f := by rw [key]
      refine ⟨⟨fun _ => ⟨f, rfl, hcond.2.1, hcond.2.2⟩, fun _ => ?_⟩, ?_⟩
      · rw [keycb]; exact hcond.2.2
      · intro g hg hv hd
        obtain rfl := Option.some.inj hg
        exact keycb
    · rw [if_neg hcond] at key
      have keycb : (loop_iteration env st).1.current_board = st.current_board := by
        rw [key]
      have hforce : ∀ g, (some f : Option String) = some g →
          env.is_valid_fen g = true → some g ≠ st.current_board → False := by
        intro g hg hv hd
        obtain rfl := Option.some.inj hg
        apply hcond
        refine ⟨?_, hv, hd⟩
        intro hfe
        rw [hfe, hempty] at hv
        simp at hv
      refine ⟨⟨fun hc => absurd keycb hc, ?_⟩, ?_⟩
      · rintro ⟨g, hg, hv, hd⟩; exact (hforce g hg hv hd).elim
      · intro g hg hv hd; exact (hforce g hg hv hd).elim

/-- Witness for C3 at an environment whose fast path reads the starting
position while no board is known yet. -/
theorem C3_position_change_iff_witness :
    (loop_iteration envChange stEx).1.current_board =
      some "rnbqkbnr/pppppppp/8/8/8/8/PPPPPPPP/RNBQKBNR" :=
  (C3_position_change_iff envChange stEx (by decide)).2
    "rnbqkbnr/pppppppp/8/8/8/8/PPPPPPPP/RNBQKBNR" (by decide) (by decide) (by decide)

/-- C4: a board change arriving while the busy flag is set still updates
`current_board`, spawns no analysis task, and a direct call of
`analyze_new_position` in the busy state is a no-op (the position is
dropped, not queued). -/
theorem C4_busy_drop (env : Env) (st : CompanionState) (f : String)
    (frame : Option Frame) (h : st.analyzing = true) :
    (on_board_change st f).1.current_board = some f ∧
    (on_board_change st f).2 = false ∧
    analyze_new_position env (on_board_change st f).1 f frame =
      (on_board_change st f).1 := by
  have h1 : on_board_change st f = ({ st with current_board := some f }, false) := by
    unfold on_board_change; rw [h]; simp
  rw [h1]
  refine ⟨rfl, rfl, ?_⟩
  simp [analyze_new_position, h]

/-- Witness for C4 at a concrete busy state. -/
theorem C4_busy_drop_witness :
    (on_board_change stBusy "r1b").1.current_board = some "r1b" ∧
    (on_board_change stBusy "r1b").2 = false ∧
    analyze_new_position envOnePiece (on_board_change stBusy "r1b").1 "r1b" none =
      (on_board_change stBusy "r1b").1 :=
  C4_busy_drop envOnePiece stBusy "r1b" none rfl

/-- C5: every execution of `analyze_new_position` that sets the busy flag
(entered with the flag clear) ends with the flag clear, both when the
analyzer succeeds and when it raises (the `finally` clause), so later
position changes remain analyzable. -/
theorem C5_busy_flag_cleared (env : Env) (st : CompanionState) (fen : String)
    (frame : Option Frame) (h : st.analyzing = false) :
    (analyze_new_position env st fen frame).analyzing = false ∧
    (analyze_new_position
        { env with analyze_both_perspectives := fun _ _ _ => .error () }
        st fen frame).analyzing = false := by
  have gen : ∀ e : Env, (analyze_new_position e st fen frame).analyzing = false := by
    intro e
    unfold analyze_new_position
    rw [if_neg (by simp [h])]
    cases hcall : e.analyze_both_perspectives fen frame st.commentary_buffer <;> rfl
  exact ⟨gen env, gen _⟩

/-- Witness for C5 at a succeeding analyzer and its failing variant. -/
theorem C5_busy_flag_cleared_witness :
    (analyze_new_position envAnalyzeOk stEx "fen1" none).analyzing = false ∧
    (analyze_new_position
        { envAnalyzeOk with analyze_both_perspectives := fun _ _ _ => .error () }
        stEx "fen1" none).analyzing = false :=
  C5_busy_flag_cleared envAnalyzeOk stEx "fen1" none rfl

/-- C10: when the analyzer call raises during `analyze_new_position`, the
stored `current_analysis` is unchanged: the overwrite happens only after
a successful return. -/
theorem C10_analysis_preserved_on_failure (env : Env) (st : CompanionState)
    (fen : String) (frame : Option Frame)
    (h : st.analyzing = false)
    (herr : env.analyze_both_perspectives fen frame st.commentary_buffer = .error ()) :
    (analyze_new_position env st fen frame).current_analysis =
      st.current_analysis := by
  unfold analyze_new_position
  rw [if_neg (by simp [h]), herr]

/-- Witness for C10 at a failing analyzer over a state holding a previous
analysis. -/
theorem C10_analysis_preserved_on_failure_witness :
    (analyze_new_position envOnePiece stWithAnalysis "fen1" none).current_analysis =
      some [("white", 42)] := by
  have h := C10_analysis_preserved_on_failure envOnePiece stWithAnalysis "fen1" none rfl rfl
  simpa using h

/-- C1 (counterexample): with a valid cached mask and a piece-detection
result of exactly one piece (fewer than 2), the fast path returns `None`
directly; the second component `false` shows `_fallback_full_detection` is
not invoked, contradicting the claim that the fallback detector is
triggered in this case. -/
theorem C1_counterexample :
    (envOnePiece.detect_pieces_direct 0 maskEx.bbox fastPathModelId).map
        (fun pr => pr.predictions.length) = some 1 ∧
    extract_fen_with_cached_mask envOnePiece (some maskEx) 0 = (none, false) :=
  ⟨rfl, rfl⟩

/-- C1 (amended): a fast-path extraction whose piece-detection result has
fewer than 2 pieces, or whose converted FEN equals the empty-board
sentinel, returns `None` without invoking `_fallback_full_detection`, and
the polling iteration consuming it leaves `current_board` unchanged. -/
theorem C1_amended_fastpath (env : Env) (st : CompanionState) (m : BoardMask)
    (frame : Frame) (pr : PieceResult)
    (hmask : st.current_board_mask = some m)
    (hread : env.read = some frame)
    (hw : m.bbox.x_max - m.bbox.x_min ≠ 0)
    (hh : m.bbox.y_max - m.bbox.y_min ≠ 0)
    (hdet : env.detect_pieces_direct frame m.bbox fastPathModelId = some pr)
    (hrej : pr.predictions.length < 2 ∨
      env.pieces_to_fen_from_dimensions pr 640 640 fastPathModelId = emptyBoardFen) :
    extract_fen_with_cached_mask env (some m) frame = (none, false) ∧
    (loop_iteration env st).1.current_board = st.current_board := by
  have hcond : ¬ (m.bbox.x_max - m.bbox.x_min = 0 ∨ m.bbox.y_max - m.bbox.y_min = 0) := by
    push_neg; exact ⟨hw, hh⟩
  have hfast : extract_fen_with_cached_mask env (some m) frame = (none, false) := by
    rcases hrej with hlow | hsent
    · simp [extract_fen_with_cached_mask, hcond, hdet, hlow]
    · by_cases hlow : pr.predictions.length < 2
      · simp [extract_fen_with_cached_mask, hcond, hdet, hlow]
      · simp [extract_fen_with_cached_mask, hcond, hdet, hlow, hsent]
  refine ⟨hfast, ?_⟩
  simp [loop_iteration, hmask, hread, hfast]

/-- Witness for C1 (amended) at the one-piece environment. -/
theorem C1_amended_fastpath_witness :
    extract_fen_with_cached_mask envOnePiece (some maskEx) 0 = (none, false) ∧
    (loop_iteration envOnePiece stEx).1.current_board = stEx.current_board :=
  C1_amended_fastpath envOnePiece stEx maskEx 0 { predictions := [0] }
    rfl rfl (by decide) (by decide) rfl (Or.inl (by decide))

/-- C2 (counterexample): when the screenshot capture fails (`ret == False`),
`update_board_mask` returns early and the cached mask keeps its previous
(stale) value instead of being set to `None`, contradicting the claim that
every failed update nulls the cache. -/
theorem C2_counterexample :
    envNoFrame.read = none ∧
    update_board_mask envNoFrame (some maskOld) 7 = some maskOld :=
  ⟨rfl, rfl⟩

/-- C2 (amended): a failed segmentation (exception), segmentation with no
predictions, or an unextractable bounding box sets the cached mask to
`None`, and a successful update replaces it wholesale; but a failed frame
capture returns early, leaving the previous (possibly stale) mask in
place. -/
theorem C2_amended_mask_update (env : Env) (old : Option BoardMask) (now : Nat) :
    (env.read = none → update_board_mask env old now = old) ∧
    (∀ shot, env.read = some shot →
      env.segment_board_direct shot = .error () →
      update_board_mask env old now = none) ∧
    (∀ shot seg, env.read = some shot →
      env.segment_board_direct shot = .ok seg → seg.predictions = [] →
      update_board_mask env old now = none) ∧
    (∀ shot seg, env.read = some shot →
      env.segment_board_direct shot = .ok seg → seg.predictions ≠ [] →
      env.extract_bbox_from_segmentation seg = none →
      update_board_mask env old now = none) ∧
    (∀ shot seg b, env.read = some shot →
      env.segment_board_direct shot = .ok seg → seg.predictions ≠ [] →
      env.extract_bbox_from_segmentation seg = some b →
      update_board_mask env old now =
        some { bbox := b.coords, confidence := b.confidence, timestamp := now }) := by
  refine ⟨?_, ?_, ?_, ?_, ?_⟩
  · intro h; simp [update_board_mask, h]
  · intro shot h hs; simp [update_board_mask, h, hs]
  · intro shot seg h hs hp; simp [update_board_mask, h, hs, hp]
  · intro shot seg h hs hp hb
    simp [update_board_mask, h, hs, hb, List.isEmpty_iff, hp]
  · intro shot seg b h hs hp hb
    simp [update_board_mask, h, hs, hb, List.isEmpty_iff, hp]

/-- Witness for C2 (amended): stale retention on capture failure, null on
segmentation failure, wholesale replacement on success. -/
theorem C2_amended_mask_update_witness :
    update_board_mask envNoFrame (some maskOld) 7 = some maskOld ∧
    update_board_mask envSegFail none 3 = none ∧
    update_board_mask envOnePiece none 3 =
      some { bbox := bboxEx, confidence := 9, timestamp := 3 } := by
  refine ⟨(C2_amended_mask_update envNoFrame (some maskOld) 7).1 rfl, ?_, ?_⟩
  · exact (C2_amended_mask_update envSegFail none 3).2.1 0 rfl rfl
  · exact (C2_amended_mask_update envOnePiece none 3).2.2.2.2 0
      { predictions := [0] } { coords := bboxEx, confidence := 9 }
      rfl rfl (by decide) rfl

/-- The last `n` entries of a list, in order (Python slicing `l[-n:]` up to
the whole-list case). -/
def lastN {α : Type} (n : Nat) (l : List α) : List α := l.drop (l.length - n)

/-- One append-and-trim step equals keeping the last 10 of the appended
list. -/
theorem append_commentary_line_eq_lastN (b : List String) (t : String) :
    append_commentary_line b t = lastN 10 (b ++ [t]) := by
  unfold append_commentary_line lastN
  by_cases h : (b ++ [t]).length > 10
  · rw [if_pos h]
  · rw [if_neg h, Nat.sub_eq_zero_of_le (by omega), List.drop_zero]

/-- Trimming to the last `n` is idempotent under appending a suffix. -/
theorem lastN_append_lastN {α : Type} (n : Nat) (l ts : List α) :
    lastN n (lastN n l ++ ts) = lastN n (l ++ ts) := by
  unfold lastN
  rcases Nat.le_total l.length n with h | h
  · rw [Nat.sub_eq_zero_of_le h, List.drop_zero]
  · have hlen : (l.drop (l.length - n)).length = n := by
      rw [List.length_drop]; omega
    rw [List.drop_append_eq_append_drop, List.drop_append_eq_append_drop,
        List.drop_drop, List.length_append, List.length_append, hlen]
    congr 2 <;> omega

/-- Folding append-and-trim from a trimmed seed computes the last 10 of the
concatenation. -/
theorem foldl_append_commentary (ts : List String) :
    ∀ l : List String,
      ts.foldl append_commentary_line (lastN 10 l) = lastN 10 (l ++ ts) := by
  induction ts with
  | nil => intro l; simp
  | cons t ts ih =>
    intro l
    rw [List.foldl_cons, append_commentary_line_eq_lastN, lastN_append_lastN,
        ih (l ++ [t])]
    simp

/-- Folding append-and-trim from the empty buffer keeps exactly the last 10
appended lines. -/
theorem commentary_foldl_eq_lastN (ts : List String) :
    ts.foldl append_commentary_line [] = lastN 10 ts := by
  have h := foldl_append_commentary ts []
  simpa [lastN] using h

/-- C6: for every sequence of finalized transcript appends starting from the
empty buffer, the buffer length never exceeds 10, and after more than 10
appends the buffer holds exactly the 10 most recent lines in arrival
order. -/
theorem C6_buffer_bounded (ts : List String) :
    (ts.foldl append_commentary_line []).length ≤ 10 ∧
    (10 < ts.length →
      ts.foldl append_commentary_line [] = ts.drop (ts.length - 10)) := by
  rw [commentary_foldl_eq_lastN]
  constructor
  · unfold lastN; rw [List.length_drop]; omega
  · intro _; rfl

/-- Witness for C6: eleven appends T1..T11 leave exactly T2..T11. -/
theorem C6_buffer_bounded_witness :
    (["T1", "T2", "T3", "T4", "T5", "T6", "T7", "T8", "T9", "T10",
        "T11"].foldl append_commentary_line []).length ≤ 10 ∧
    ["T1", "T2", "T3", "T4", "T5", "T6", "T7", "T8", "T9", "T10",
        "T11"].foldl append_commentary_line [] =
      ["T2", "T3", "T4", "T5", "T6", "T7", "T8", "T9", "T10", "T11"] := by
  have h := C6_buffer_bounded
    ["T1", "T2", "T3", "T4", "T5", "T6", "T7", "T8", "T9", "T10", "T11"]
  refine ⟨h.1, ?_⟩
  rw [h.2 (by decide)]
  rfl

/-- C7: the fallback detector depends only on the consensus call with
exactly `n = 7` passes and `min_consensus = 3`, and rejects (returns no
position) a consensus with fewer than 2 pieces or the empty-board
sentinel, mirroring the fast-path rejection criteria. -/
theorem C7_fallback_consensus (env env2 : Env) (frame : Frame) :
    (env2.consensus_piece_detection frame 7 3 =
        env.consensus_piece_detection frame 7 3 →
      fallback_full_detection env2 frame = fallback_full_detection env frame) ∧
    (∀ r, env.consensus_piece_detection frame 7 3 = .ok r → r.piece_count < 2 →
      fallback_full_detection env frame = none) ∧
    (∀ r, env.consensus_piece_detection frame 7 3 = .ok r →
      r.consensus_fen = emptyBoardFen →
      fallback_full_detection env frame = none) := by
  refine ⟨?_, ?_, ?_⟩
  · intro h; unfold fallback_full_detection; rw [h]
  · intro r hr hlow; simp [fallback_full_detection, hr, hlow]
  · intro r hr hsent
    by_cases hlow : r.piece_count < 2
    · simp [fallback_full_detection, hr, hlow]
    · simp [fallback_full_detection, hr, hlow, hsent]

/-- A concrete environment whose consensus finds only one piece. -/
def envConsensusLow : Env := { envOnePiece with
  consensus_piece_detection :=
    fun _ _ _ => .ok { piece_count := 1, consensus_fen := "8/8/8/8/4K3/8/8/8" } }

/-- A concrete environment whose consensus reports the empty-board
sentinel. -/
def envConsensusEmpty : Env := { envOnePiece with
  consensus_piece_detection :=
    fun _ _ _ => .ok { piece_count := 5, consensus_fen := emptyBoardFen } }

/-- Witness for C7: both rejection conditions fire, and the result only
depends on the `(7, 3)` consensus call. -/
theorem C7_fallback_consensus_witness :
    fallback_full_detection envConsensusLow 0 = none ∧
    fallback_full_detection envConsensusEmpty 0 = none ∧
    fallback_full_detection { envConsensusLow with read := none } 0 =
      fallback_full_detection envConsensusLow 0 := by
  refine ⟨?_, ?_, ?_⟩
  · exact (C7_fallback_consensus envConsensusLow envConsensusLow 0).2.1
      { piece_count := 1, consensus_fen := "8/8/8/8/4K3/8/8/8" } rfl (by decide)
  · exact (C7_fallback_consensus envConsensusEmpty envConsensusEmpty 0).2.2
      { piece_count := 5, consensus_fen := emptyBoardFen } rfl rfl
  · exact (C7_fallback_consensus envConsensusLow
      { envConsensusLow with read := none } 0).1 rfl

/-- C8: construction fails with a `ValueError` when the `ROBOFLOW_API_KEY`
environment variable is absent, and this precondition check passes when a
non-empty credential is present. -/
theorem C8_api_key_precondition (getenv : String → Option String) :
    (getenv "ROBOFLOW_API_KEY" = none →
      roboflow_key_check getenv =
        .error
          "ROBOFLOW_API_KEY environment variable required for vision pipeline") ∧
    (∀ v, getenv "ROBOFLOW_API_KEY" = some v → v ≠ "" →
      roboflow_key_check getenv = .ok ()) := by
  constructor
  · intro h; simp [roboflow_key_check, h]
  · intro v hv hne; simp [roboflow_key_check, hv, hne]

/-- Witness for C8 at an empty environment and one holding a credential. -/
theorem C8_api_key_precondition_witness :
    roboflow_key_check (fun _ => none) =
      .error
        "ROBOFLOW_API_KEY environment variable required for vision pipeline" ∧
    roboflow_key_check (fun _ => some "rf-key") = .ok () :=
  ⟨(C8_api_key_precondition (fun _ => none)).1 rfl,
   (C8_api_key_precondition (fun _ => some "rf-key")).2 "rf-key" rfl (by decide)⟩

/-- C9: the on-demand `analyze_current_position` tool path is independent of
the analyzer capability (no new analysis is triggered or awaited), serves
its content from the stored `current_analysis`, and defaults the
perspective to `"white"` on capture failure or an exception in either
inference collaborator. -/
theorem C9_on_demand_read (env : Env) (st : CompanionState) (qa : Option String)
    (g : String → Option Frame → List String →
      Except Unit (List (String × Analysis))) :
    analyze_current_position_tool { env with analyze_both_perspectives := g }
        st qa =
      analyze_current_position_tool env st qa ∧
    (env.read = none →
      resolve_perspective env (qa.getD defaultPositionQuery) = "white") ∧
    (∀ frame, env.read = some frame →
      env.extract_broadcast_context frame = .error () →
      resolve_perspective env (qa.getD defaultPositionQuery) = "white") ∧
    (∀ frame ctx, env.read = some frame →
      env.extract_broadcast_context frame = .ok ctx →
      env.determine_query_perspective (qa.getD defaultPositionQuery) ctx =
        .error () →
      resolve_perspective env (qa.getD defaultPositionQuery) = "white") ∧
    (∀ t q c, analyze_current_position_tool env st qa = .analysis_ready t q c →
      ∃ m a, st.current_analysis = some m ∧ lookupPerspective m c = some a ∧
        t = env.format_for_live_model a (qa.getD defaultPositionQuery) ∧
        q = qa.getD defaultPositionQuery) := by
  refine ⟨rfl, ?_, ?_, ?_, ?_⟩
  · intro h; simp [resolve_perspective, h]
  · intro frame hr hc; simp [resolve_perspective, hr, hc]
  · intro frame ctx hr hc hd; simp [resolve_perspective, hr, hc, hd]
  · intro t q c h
    simp only [analyze_current_position_tool] at h
    cases hca : st.current_analysis with
    | none => rw [hca] at h; exact ToolResult.noConfusion h
    | some m =>
      rw [hca] at h
      simp only at h
      cases hl : lookupPerspective m
          (resolve_perspective env (qa.getD defaultPositionQuery)) with
      | none => rw [hl] at h; exact ToolResult.noConfusion h
      | some a =>
        rw [hl] at h
        simp only at h
        cases h
        exact ⟨m, a, rfl, hl, rfl, rfl⟩

/-- Witness for C9: capture failure defaults the perspective to white and
the ready result is served from the stored analysis map. -/
theorem C9_on_demand_read_witness :
    resolve_perspective envNoFrame
        ((none : Option String).getD defaultPositionQuery) = "white" ∧
    ∃ m a, stWithAnalysis.current_analysis = some m ∧
      lookupPerspective m "white" = some a ∧
      defaultPositionQuery =
        envNoFrame.format_for_live_model a
          ((none : Option String).getD defaultPositionQuery) ∧
      defaultPositionQuery = (none : Option String).getD defaultPositionQuery := by
  have h := C9_on_demand_read envNoFrame stWithAnalysis none (fun _ _ _ => .error ())
  exact ⟨h.2.1 rfl,
    h.2.2.2.2 defaultPositionQuery defaultPositionQuery "white" (by decide)⟩
